import Mathlib

/-
Verification of the geometric core of `renderer/blender/render_tiles.py`:
geo projection, footprint validation, prism extrusion, tree scattering
(rejection sampling), and the render-tile grid.

Modelling conventions.
* Python floats are modelled by exact numbers: by `ℝ` where the code uses
  transcendental functions (`math.cos`, for the projection constant) and by
  `ℚ` everywhere else, so that every concrete run can be evaluated by
  `decide`.  Float rounding is abstracted away.
* The factor `meters_per_deg_lon = 111320 * cos(center_lat * pi / 180)` is
  transcendental, so the rational model takes it as an explicit parameter
  `mpdLon`; its defining real expression is `meters_per_deg_lon` below.
* Blender/bmesh calls are external library calls; the mesh produced by
  `bmesh.ops.extrude_face_region` on a single n-gon is modelled per its
  documented behaviour (and the spec): the bottom face, a congruent top
  face, and one side quad per edge.  `bpy.ops.mesh.primitive_*` tree
  geometry is irrelevant to every claim and is modelled only through the
  number of random draws `create_tree` consumes.
* Python's ambient `random.random()` is modelled by a stream `r : ℕ → ℚ`
  of draws together with an index of the next draw; `random.randint` and
  `random.choice` each consume one draw.
-/

namespace RenderTiles

unseal Rat.mul Rat.add Rat.sub Rat.inv Rat.ofScientific

/-- A (longitude, latitude) pair in degrees, as passed to the projection
code of `render_tiles.py`. -/
structure GeoPoint where
  lon : ℝ
  lat : ℝ

/-- The `centerLon` / `centerLat` / `scale` fields of `scene_data`, as read
by `create_building` (lines 1414-1416) and `scatter_trees` (lines 924-926). -/
structure ProjectionConfig where
  centerLon : ℝ
  centerLat : ℝ
  scale : ℝ

/-- `meters_per_deg_lon = 111320 * math.cos(center_lat * math.pi / 180)`
(render_tiles.py lines 927 and 1417). -/
noncomputable def meters_per_deg_lon (centerLat : ℝ) : ℝ :=
  111320 * Real.cos (centerLat * Real.pi / 180)

/-- `meters_per_deg_lat = 111320` (render_tiles.py lines 928 and 1418). -/
def meters_per_deg_lat : ℝ := 111320

/-- The projection applied to every coordinate pair in `create_building`
(lines 1424-1425) and `scatter_trees` (lines 934-935):
`x = (lon - center_lon) * meters_per_deg_lon * scale` and
`z = -(lat - center_lat) * meters_per_deg_lat * scale`.
A total function: it succeeds on every (finite) input. -/
noncomputable def project (p : GeoPoint) (c : ProjectionConfig) : ℝ × ℝ :=
  ((p.lon - c.centerLon) * meters_per_deg_lon c.centerLat * c.scale,
   -(p.lat - c.centerLat) * meters_per_deg_lat * c.scale)

/-- An axis-aligned bounds dict `{minX, maxX, minZ, maxZ}`. -/
structure Bounds where
  minX : ℚ
  maxX : ℚ
  minZ : ℚ
  maxZ : ℚ
deriving DecidableEq

/-- The `scene_data` configuration fields consumed by the geometry code
(`centerLon`, `centerLat`, `scale`, `bounds`). -/
structure SceneData where
  centerLon : ℚ
  centerLat : ℚ
  scale : ℚ
  bounds : Bounds
deriving DecidableEq

/-- One record of the `buildings` list: `coords` (a list of [lon, lat]
pairs), `height`, `type`. -/
structure Building where
  coords : List (ℚ × ℚ)
  height : ℚ
  btype : String
deriving DecidableEq

/-- `HEIGHT_SCALE = 0.8` (render_tiles.py line 25); the vertical
exaggeration factor the spec calls `heightScale`. -/
def HEIGHT_SCALE : ℚ := 0.8

/-- The per-coordinate projection loop shared by `create_building`
(lines 1421-1426) and `scatter_trees` (lines 930-936), in the exact
rational model; `mpdLon` is the precomputed `meters_per_deg_lon` factor. -/
def project_footprint (mpdLon : ℚ) (sd : SceneData) (coords : List (ℚ × ℚ)) :
    List (ℚ × ℚ) :=
  coords.map (fun c =>
    ((c.1 - sd.centerLon) * mpdLon * sd.scale,
     -(c.2 - sd.centerLat) * 111320 * sd.scale))

/-- Surface role of a mesh face. -/
inductive FaceRole where
  | wall
  | roof
  | floor
deriving DecidableEq

/-- A mesh face: an ordered list of vertex indices plus its surface role. -/
structure Face where
  idxs : List ℕ
  role : FaceRole
deriving DecidableEq

/-- A mesh: ordered vertex list (x, y, z) plus a face list. -/
structure Mesh where
  verts : List (ℚ × ℚ × ℚ)
  faces : List Face
deriving DecidableEq

/-- Twice the signed area of triangle `a b c`; zero iff the three points
are collinear. -/
def cross2 (a b c : ℚ × ℚ) : ℚ :=
  (b.1 - a.1) * (c.2 - a.2) - (b.2 - a.2) * (c.1 - a.1)

/-- All points of the list lie on one line. -/
def AllCollinear (l : List (ℚ × ℚ)) : Prop :=
  ∀ a ∈ l, ∀ b ∈ l, ∀ c ∈ l, cross2 a b c = 0

instance (l : List (ℚ × ℚ)) : Decidable (AllCollinear l) :=
  inferInstanceAs (Decidable (∀ a ∈ l, ∀ b ∈ l, ∀ c ∈ l, cross2 a b c = 0))

/-- The failure condition of `bm.faces.new(bottom_verts)` in
`create_building` (render_tiles.py lines 1447-1452): per the code's own
comment, face creation raises `ValueError` exactly for duplicate or
collinear vertices. -/
def face_construction_fails (l : List (ℚ × ℚ)) : Prop :=
  ¬l.Nodup ∨ AllCollinear l

instance (l : List (ℚ × ℚ)) : Decidable (face_construction_fails l) :=
  inferInstanceAs (Decidable (¬l.Nodup ∨ AllCollinear l))

/-- `if verts_2d[0] == verts_2d[-1]: verts_2d = verts_2d[:-1]`
(render_tiles.py lines 1431-1433): the last projected point is dropped
exactly when it is (exactly) equal to the first. -/
def drop_closing_dup (l : List (ℚ × ℚ)) : List (ℚ × ℚ) :=
  if l.head? = l.getLast? then l.dropLast else l

/-- The validation phase of `create_building` (lines 1421-1452): project
every coordinate, reject if fewer than 3 points, drop an exactly-repeated
closing point, reject if fewer than 3 points remain, reject if the bottom
face cannot be constructed.  Returns the validated projected polygon. -/
def validate_footprint (mpdLon : ℚ) (sd : SceneData) (coords : List (ℚ × ℚ)) :
    Option (List (ℚ × ℚ)) :=
  let v := project_footprint mpdLon sd coords
  if v.length < 3 then none
  else
    let w := drop_closing_dup v
    if w.length < 3 then none
    else if face_construction_fails w then none
    else some w

/-- `scaled_height = height * scene_data["scale"] * HEIGHT_SCALE`
(render_tiles.py line 1411). -/
def scaled_building_height (height : ℚ) (sd : SceneData) : ℚ :=
  height * sd.scale * HEIGHT_SCALE

/-- The mesh built by `create_building` lines 1442-1466: bottom-face
vertices `(x, 0, z)`, the extruded copy moved up by `scaled_height`, and
the faces produced by `bmesh.ops.extrude_face_region` on one n-gon — the
bottom face (role floor), the congruent top face (role roof) and one side
quad per polygon edge (role wall). -/
def extrude_prism (w : List (ℚ × ℚ)) (h : ℚ) : Mesh :=
  let n := w.length
  ⟨w.map (fun p => (p.1, 0, p.2)) ++ w.map (fun p => (p.1, h, p.2)),
   ⟨List.range n, FaceRole.floor⟩ ::
   ⟨(List.range n).map (fun i => n + i), FaceRole.roof⟩ ::
   (List.range n).map (fun i =>
     ⟨[i, (i + 1) % n, n + (i + 1) % n, n + i], FaceRole.wall⟩)⟩

/-- The geometry part of `create_building` (render_tiles.py lines
1410-1468): validate the footprint, then extrude it by `scaled_height`;
`none` is the silent per-building rejection path. -/
def create_building (mpdLon : ℚ) (coords : List (ℚ × ℚ)) (height : ℚ)
    (sd : SceneData) : Option Mesh :=
  (validate_footprint mpdLon sd coords).map
    (fun w => extrude_prism w (scaled_building_height height sd))

/-- The y coordinate of a mesh vertex. -/
def vert_y (v : ℚ × ℚ × ℚ) : ℚ := v.2.1

/-- Centroid height of a face (`poly.center.y` in render_tiles.py line
1523): mean of the y coordinates of its vertices. -/
def face_centroid_y (m : Mesh) (f : Face) : ℚ :=
  ((f.idxs.map (fun i => vert_y (m.verts.getD i (0, 0, 0)))).sum) / f.idxs.length

/-- The building loop of `main` (render_tiles.py lines 1912-1926): every
building is attempted, rejected footprints are skipped, the run never
aborts. -/
def build_all (mpdLon : ℚ) (sd : SceneData) (bs : List Building) : List Mesh :=
  bs.filterMap (fun b => create_building mpdLon b.coords b.height sd)

/-- `point_in_polygon` (render_tiles.py lines 940-951): ray casting; edge
crossings counted with the half-open `(zi > pz) != (zj > pz)` convention,
parity decides inside.  `j` starts at `n - 1` and trails `i` by one. -/
def point_in_polygon (px pz : ℚ) (polygon : List (ℚ × ℚ)) : Bool :=
  let n := polygon.length
  (List.range n).foldl
    (fun inside i =>
      let a := polygon.getD i (0, 0)
      let b := polygon.getD ((i + n - 1) % n) (0, 0)
      if (decide (a.2 > pz) != decide (b.2 > pz)) &&
          decide (px < (b.1 - a.1) * (pz - a.2) / (b.2 - a.2) + a.1)
      then !inside else inside)
    false

/-- Squared point-to-segment distance with the projection parameter `t`
clamped to `[0, 1]` (render_tiles.py lines 963-970).  For a zero-length
segment rational division by zero yields `t = 0`, i.e. the squared
distance to the endpoint. -/
def dist_sq_point_seg (px pz x1 z1 x2 z2 : ℚ) : ℚ :=
  let dx := x2 - x1
  let dz := z2 - z1
  let t := max 0 (min 1 (((px - x1) * dx + (pz - z1) * dz) / (dx * dx + dz * dz)))
  (px - (x1 + t * dx)) ^ 2 + (pz - (z1 + t * dz)) ^ 2

/-- `is_valid_tree_location` (render_tiles.py lines 953-973): not inside
any obstacle polygon, and — for every edge of positive squared length —
squared distance to the edge at least `margin * margin`.  Edges with
`length_sq == 0` are skipped by the code's `if length_sq > 0` guard. -/
def is_valid_tree_location (polys : List (List (ℚ × ℚ))) (x z margin : ℚ) : Bool :=
  polys.all (fun poly =>
    !point_in_polygon x z poly &&
    (List.range poly.length).all (fun i =>
      let p1 := poly.getD i (0, 0)
      let p2 := poly.getD ((i + 1) % poly.length) (0, 0)
      let dx := p2.1 - p1.1
      let dz := p2.2 - p1.2
      decide (dx * dx + dz * dz ≤ 0) ||
      decide (margin * margin ≤ dist_sq_point_seg x z p1.1 p1.2 p2.1 p2.2)))

/-- The obstacle list built at the top of `scatter_trees` (render_tiles.py
lines 930-938): each building's coordinates are projected, and the polygon
is kept only when it has at least 3 points. -/
def building_polys (mpdLon : ℚ) (sd : SceneData) (bs : List Building) :
    List (List (ℚ × ℚ)) :=
  bs.filterMap (fun b =>
    let poly := project_footprint mpdLon sd b.coords
    if 3 ≤ poly.length then some poly else none)

/-- A placed tree: position, style tag, scale factor, recorded at
render_tiles.py lines 990-997. -/
structure Placement where
  x : ℚ
  z : ℚ
  style : String
  scale : ℚ
deriving DecidableEq

/-- `random.randint(lo, hi)` modelled as one draw mapped into
`[lo, hi]`. -/
def randint_draw (lo hi : ℕ) (r : ℚ) : ℕ :=
  lo + min (hi - lo) (Int.toNat ⌊r * ((hi : ℚ) - lo + 1)⌋)

/-- The number of ambient random draws `create_tree` (render_tiles.py
lines 807-907) consumes, returned as the next stream index: one draw for
the trunk-scale variation (line 821); for the cluster style one
`randint(3, 5)` draw plus five draws per sphere (angle, radius, y, size,
colour choice: lines 849-875); for the cone style one colour-choice draw
(line 901).  The Blender mesh objects themselves are external state and
are not modelled. -/
def create_tree_draws (style : String) (r : ℕ → ℚ) (k : ℕ) : ℕ :=
  let k1 := k + 1
  if style = "cluster" then
    let num_spheres := randint_draw 3 5 (r k1)
    k1 + 1 + num_spheres * 5
  else
    k1 + 1

/-- The rejection-sampling loop of `scatter_trees` (render_tiles.py lines
986-998), with the remaining attempt budget as fuel: draw `x` and `z`
uniformly in the shrunk bounds; on acceptance draw the style
(`"cluster"` iff the draw exceeds 0.3) and the scale
(`0.8 + draw * 0.6`), then let `create_tree` consume its draws.  Returns
the placements made plus the total number of attempts. -/
def scatter_loop (polys : List (List (ℚ × ℚ))) (minx maxx minz maxz : ℚ)
    (count : ℕ) (r : ℕ → ℚ) (fuel placed attempts k : ℕ) :
    List Placement × ℕ :=
  match fuel with
  | 0 => ([], attempts)
  | fuel' + 1 =>
    if count ≤ placed then ([], attempts)
    else
      let x := minx + r k * (maxx - minx)
      let z := minz + r (k + 1) * (maxz - minz)
      if is_valid_tree_location polys x z 2 then
        let style := if (0.3 : ℚ) < r (k + 2) then "cluster" else "cone"
        let scl := (0.8 : ℚ) + r (k + 3) * 0.6
        let k2 := create_tree_draws style r (k + 4)
        let rest := scatter_loop polys minx maxx minz maxz count r fuel'
          (placed + 1) (attempts + 1) k2
        (⟨x, z, style, scl⟩ :: rest.1, rest.2)
      else
        scatter_loop polys minx maxx minz maxz count r fuel' placed
          (attempts + 1) (k + 2)

/-- `scatter_trees` (render_tiles.py lines 910-1000): build the obstacle
polygons, shrink `ground_bounds` by the fixed edge margin 3.0, and run the
rejection-sampling loop with attempt budget `count * 20`.  Returns the
placements and the number of attempts used (the code reports both
counts). -/
def scatter_trees (mpdLon : ℚ) (bs : List Building) (sd : SceneData)
    (ground_bounds : Bounds) (count : ℕ) (r : ℕ → ℚ) :
    List Placement × ℕ :=
  let polys := building_polys mpdLon sd bs
  scatter_loop polys (ground_bounds.minX + 3) (ground_bounds.maxX - 3)
    (ground_bounds.minZ + 3) (ground_bounds.maxZ - 3) count r
    (count * 20) 0 0 0

/-- A render tile record `(col, row, worldX, worldZ)`
(render_tiles.py lines 1659-1664). -/
structure Tile where
  col : ℕ
  row : ℕ
  worldX : ℚ
  worldZ : ℚ
deriving DecidableEq

/-- The tile grid returned by `calculate_tile_grid`. -/
structure TileGrid where
  tiles : List Tile
  cols : ℤ
  rows : ℤ
  gridBounds : Bounds
deriving DecidableEq

/-- `calculate_tile_grid` (render_tiles.py lines 1644-1676): pad the
content bounds by `world_tile_size * 0.5` on each side, take
`cols = ceil(span_x / world_tile_size)` (and `rows` analogously), and
emit one tile per `(col, row)` with centers at
`grid_min + (index + 0.5) * world_tile_size`.  `math.ceil` yields an
integer which can be non-positive; `range` over a non-positive count is
empty, modelled by `Int.toNat`.  Caution: rational division is total
(`x / 0 = 0`) whereas the source raises an unhandled `ZeroDivisionError`
at line 1653 when `world_tile_size = 0`; that error path is modelled at
the call site (`run_pipeline`), so this definition matches the source
only for `world_tile_size ≠ 0` — every theorem stated directly about it
assumes `0 < world_tile_size`. -/
def calculate_tile_grid (bounds : Bounds) (world_tile_size : ℚ) : TileGrid :=
  let padding := world_tile_size * 0.5
  let grid_min_x := bounds.minX - padding
  let grid_max_x := bounds.maxX + padding
  let grid_min_z := bounds.minZ - padding
  let grid_max_z := bounds.maxZ + padding
  let cols : ℤ := ⌈(grid_max_x - grid_min_x) / world_tile_size⌉
  let rows : ℤ := ⌈(grid_max_z - grid_min_z) / world_tile_size⌉
  ⟨(List.range rows.toNat).flatMap (fun row =>
      (List.range cols.toNat).map (fun col =>
        ⟨col, row,
         grid_min_x + ((col : ℚ) + 0.5) * world_tile_size,
         grid_min_z + ((row : ℚ) + 0.5) * world_tile_size⟩)),
   cols, rows,
   ⟨grid_min_x, grid_max_x, grid_min_z, grid_max_z⟩⟩

/-- A tile's footprint: the `world_tile_size` square centered at its
world center.  Membership of a point `(x, z)`. -/
def in_tile_cell (t : Tile) (world_tile_size x z : ℚ) : Prop :=
  |x - t.worldX| ≤ world_tile_size / 2 ∧ |z - t.worldZ| ≤ world_tile_size / 2

instance (t : Tile) (w x z : ℚ) : Decidable (in_tile_cell t w x z) :=
  inferInstanceAs (Decidable (_ ∧ _))

/-- The configuration record `main` reads from the JSON file
(render_tiles.py lines 1810-1814): buildings, scene data, world tile
size, tree count.  JSON parsing and file I/O are the external boundary. -/
structure RenderConfig where
  buildings : List Building
  sceneData : SceneData
  worldTileSize : ℚ
  treeCount : ℕ
deriving DecidableEq

/-- The scene description the geometry core produces. -/
structure SceneDescription where
  meshes : List Mesh
  placements : List Placement
  grid : TileGrid
deriving DecidableEq

/-- `true` on `Except.ok`. -/
def except_is_ok {ε α : Type} : Except ε α → Bool
  | Except.ok _ => true
  | Except.error _ => false

/-- The geometry pipeline of `main` after the config is loaded
(render_tiles.py lines 1806-1945): create every building mesh (skipping
rejected footprints, line 1914), scatter trees when the tree count is
positive (line 1934), then compute the tile grid (line 1942).  The code
performs no validation of `scale`, `worldTileSize` or the footprint
list.  Its single failure path is the unguarded division at line 1653:
when `worldTileSize = 0` Python raises an unhandled `ZeroDivisionError`
inside `calculate_tile_grid` — modelled by the `Except.error` branch.
Mirroring the source's order, that crash happens only after the building
meshes and tree placements have already been built; for every other
configuration value the run completes without error. -/
def run_pipeline (mpdLon : ℚ) (cfg : RenderConfig) (r : ℕ → ℚ) :
    Except String SceneDescription :=
  let meshes := build_all mpdLon cfg.sceneData cfg.buildings
  let placements :=
    if 0 < cfg.treeCount then
      (scatter_trees mpdLon cfg.buildings cfg.sceneData cfg.sceneData.bounds
        cfg.treeCount r).1
    else []
  if cfg.worldTileSize = 0 then
    Except.error "ZeroDivisionError: division by zero"
  else
    let grid := calculate_tile_grid cfg.sceneData.bounds cfg.worldTileSize
    Except.ok ⟨meshes, placements, grid⟩

/-- Fixture: scene data centered at (0, 0) with scale 1. -/
def sd0 : SceneData := ⟨0, 0, 1, ⟨-10, 10, -10, 10⟩⟩

/-- Fixture: the example content bounds of the spec. -/
def exampleBounds : Bounds := ⟨0, 100, 0, 40⟩

/-- Fixture: the example square footprint of the spec. -/
def exampleCoords : List (ℚ × ℚ) :=
  [(0, 0), (1/1000, 0), (1/1000, 1/1000), (0, 1/1000)]

/-- Fixture: the example footprint projected at `mpdLon = 111320`,
center (0, 0), scale 1. -/
def exampleVerts : List (ℚ × ℚ) :=
  [(0, 0), (2783/25, 0), (2783/25, -2783/25), (0, -2783/25)]

/-- Fixture: a degenerate building whose three coordinates coincide. -/
def bDeg : Building := ⟨[(0, 0), (0, 0), (0, 0)], 10, "default"⟩

/-- Fixture: a building with only two coordinates. -/
def bTwo : Building := ⟨[(5, 0), (6, 0)], 10, "default"⟩

/-- Fixture: a flat (collinear) obstacle away from the origin, with all
latitudes zero so it projects onto itself at `mpdLon = 1`, scale 1. -/
def bFar : Building := ⟨[(100, 0), (101, 0), (102, 0)], 10, "default"⟩

/-- Fixture: the constant one-half random stream. -/
def rhalf : ℕ → ℚ := fun _ => 1/2

/-- Fixture: a configuration with non-positive `scale` and
`worldTileSize` and no buildings. -/
def badConfig : RenderConfig := ⟨[], ⟨0, 0, -1, ⟨0, 100, 0, 40⟩⟩, -15, 0⟩

/-- Fixture: a configuration whose `worldTileSize` is exactly zero — the
one value that makes the source crash with `ZeroDivisionError`. -/
def badConfigZero : RenderConfig := ⟨[], ⟨0, 0, -1, ⟨0, 100, 0, 40⟩⟩, 0, 0⟩

/-- At the equator the longitude factor degenerates to 111320 exactly. -/
theorem meters_per_deg_lon_zero : meters_per_deg_lon 0 = 111320 := by
  simp [meters_per_deg_lon]

/-- C1: for every finite GeoPoint and every ProjectionConfig the projection
returns `x = (lon - centerLon) * (111320 * cos(centerLat in radians)) * scale`
and `z = -(lat - centerLat) * 111320 * scale`; it is a total function, and
the negated z means increasing latitude strictly decreases z (maps to the
renderer's north/forward direction) whenever `scale > 0`. -/
theorem C1_projection :
    (∀ (p : GeoPoint) (c : ProjectionConfig),
      project p c =
        ((p.lon - c.centerLon) * (111320 * Real.cos (c.centerLat * Real.pi / 180)) * c.scale,
         -(p.lat - c.centerLat) * 111320 * c.scale)) ∧
    (∀ (c : ProjectionConfig) (p q : GeoPoint), 0 < c.scale → p.lat < q.lat →
      (project q c).2 < (project p c).2) := by
  constructor
  · intro p c
    rfl
  · intro c p q hs hlat
    simp only [project, meters_per_deg_lat]
    have h1 : p.lat - c.centerLat < q.lat - c.centerLat := by linarith
    nlinarith [h1, hs]

/-- C1 witness: at scale 1 and center (0, 0), the point with larger
latitude projects to strictly smaller z. -/
theorem C1_projection_witness :
    (project ⟨0, 1⟩ ⟨0, 0, 1⟩).2 < (project ⟨0, 0⟩ ⟨0, 0, 1⟩).2 :=
  C1_projection.2 ⟨0, 0, 1⟩ ⟨0, 0⟩ ⟨0, 1⟩ one_pos one_pos

/-- C8 counterexample: with a negative `scale` and a negative
`worldTileSize` (and an empty footprint list) the pipeline does NOT fail:
it completes successfully, and the tile grid is still computed (yielding
negative `cols`/`rows` and no tiles) — there is no fail-fast
configuration check in the code. -/
theorem C8_counterexample :
    badConfig.sceneData.scale < 0 ∧ badConfig.worldTileSize < 0 ∧
    badConfig.buildings = [] ∧
    except_is_ok (run_pipeline 111320 badConfig (fun _ => 0)) = true ∧
    calculate_tile_grid badConfig.sceneData.bounds badConfig.worldTileSize =
      ⟨[], -5, -1, ⟨15/2, 185/2, 15/2, 65/2⟩⟩ := by decide

/-- C8 amended: the program performs no fail-fast configuration
validation.  For every configuration whose `worldTileSize` is nonzero —
including negative `worldTileSize`, non-positive `scale` and an empty
footprint list — the pipeline proceeds and completes without error; at
`worldTileSize = 0` (the one remaining non-positive value) it aborts
with an unhandled `ZeroDivisionError` from the tile-grid division
(render_tiles.py line 1653), which is raised only after the building and
tree geometry has been built and is not a descriptive configuration
error. -/
theorem C8_no_config_validation (mpdLon : ℚ) (cfg : RenderConfig) (r : ℕ → ℚ) :
    (cfg.worldTileSize ≠ 0 →
      except_is_ok (run_pipeline mpdLon cfg r) = true) ∧
    (cfg.worldTileSize = 0 →
      run_pipeline mpdLon cfg r =
        Except.error "ZeroDivisionError: division by zero") := by
  constructor
  · intro h
    simp only [run_pipeline]
    rw [if_neg h]
    rfl
  · intro h
    simp only [run_pipeline]
    rw [if_pos h]

/-- C8 witness: the negative-tile-size configuration runs to completion
while the zero-tile-size configuration aborts with the division error. -/
theorem C8_no_config_validation_witness :
    except_is_ok (run_pipeline 111320 badConfig (fun _ => 0)) = true ∧
    run_pipeline 111320 badConfigZero (fun _ => 0) =
      Except.error "ZeroDivisionError: division by zero" :=
  ⟨(C8_no_config_validation 111320 badConfig (fun _ => 0)).1 (by decide),
   (C8_no_config_validation 111320 badConfigZero (fun _ => 0)).2 rfl⟩

/-- C9: scattering is a deterministic function of the supplied random
stream: two runs with the same obstacle polygons, bounds, count and
pointwise-equal draw streams (i.e. the same seed) return the identical
placement sequence — positions, styles and scales — and attempt count. -/
theorem C9_determinism (mpdLon : ℚ) (bs : List Building) (sd : SceneData)
    (gb : Bounds) (count : ℕ) (r1 r2 : ℕ → ℚ) (h : ∀ n, r1 n = r2 n) :
    scatter_trees mpdLon bs sd gb count r1 =
      scatter_trees mpdLon bs sd gb count r2 := by
  have : r1 = r2 := funext h
  rw [this]

/-- C9 witness: two syntactically different but pointwise-equal streams
give the same scatter result. -/
theorem C9_determinism_witness :
    scatter_trees 1 [] sd0 ⟨0, 20, 0, 20⟩ 1 rhalf =
      scatter_trees 1 [] sd0 ⟨0, 20, 0, 20⟩ 1 (fun _ => 1/2) :=
  C9_determinism 1 [] sd0 ⟨0, 20, 0, 20⟩ 1 rhalf (fun _ => 1/2) (fun _ => rfl)

/-- C10: a building whose coordinate list projects to fewer than 3 points
is excluded from the scatter planner's obstacle set entirely, so the
validity test (inside test and minimum-distance requirement) is literally
independent of that footprint. -/
theorem C10_short_footprint_ignored (mpdLon : ℚ) (sd : SceneData)
    (b : Building) (bs : List Building) (h : b.coords.length < 3) :
    building_polys mpdLon sd (b :: bs) = building_polys mpdLon sd bs ∧
    ∀ x z m : ℚ,
      is_valid_tree_location (building_polys mpdLon sd (b :: bs)) x z m =
        is_valid_tree_location (building_polys mpdLon sd bs) x z m := by
  have hlen : (project_footprint mpdLon sd b.coords).length < 3 := by
    simpa [project_footprint] using h
  have h1 : building_polys mpdLon sd (b :: bs) = building_polys mpdLon sd bs := by
    simp only [building_polys, List.filterMap_cons]
    rw [if_neg (by omega)]
  exact ⟨h1, fun x z m => by rw [h1]⟩

/-- C10 witness: a two-coordinate building contributes no obstacle, and a
point exactly on its first coordinate is accepted as valid. -/
theorem C10_short_footprint_ignored_witness :
    building_polys 1 sd0 [bTwo] = building_polys 1 sd0 [] ∧
    is_valid_tree_location (building_polys 1 sd0 [bTwo]) 5 0 2 = true :=
  ⟨(C10_short_footprint_ignored 1 sd0 bTwo [] (by decide)).1, by decide⟩

/-- A validated polygon always has at least 3 vertices. -/
theorem validate_footprint_length (mpdLon : ℚ) (sd : SceneData)
    (coords w : List (ℚ × ℚ)) (h : validate_footprint mpdLon sd coords = some w) :
    3 ≤ w.length := by
  rw [validate_footprint] at h
  by_cases h1 : (project_footprint mpdLon sd coords).length < 3
  · rw [if_pos h1] at h; cases h
  · rw [if_neg h1] at h
    by_cases h2 : (drop_closing_dup (project_footprint mpdLon sd coords)).length < 3
    · rw [if_pos h2] at h; cases h
    · rw [if_neg h2] at h
      by_cases h3 : face_construction_fails
          (drop_closing_dup (project_footprint mpdLon sd coords))
      · rw [if_pos h3] at h; cases h
      · rw [if_neg h3] at h
        injection h with h
        subst h
        omega

/-- The top-ring vertices of the extruded prism sit at height `h`. -/
theorem extrude_top_y (w : List (ℚ × ℚ)) (h : ℚ) (i : ℕ) (hi : i < w.length) :
    vert_y ((extrude_prism w h).verts.getD (w.length + i) (0, 0, 0)) = h := by
  simp only [extrude_prism]
  rw [List.getD_append_right _ _ _ _ (by simp)]
  simp [vert_y, List.getD_eq_getElem?_getD, List.getElem?_map, hi]

/-- The roof face of the extruded prism has centroid height `h`. -/
theorem roof_centroid (w : List (ℚ × ℚ)) (h : ℚ) (hw : w ≠ []) :
    face_centroid_y (extrude_prism w h)
      ⟨(List.range w.length).map (fun i => w.length + i), FaceRole.roof⟩ = h := by
  have hnz : ((w.length : ℚ)) ≠ 0 :=
    Nat.cast_ne_zero.mpr (List.length_pos.mpr hw).ne'
  have hmap : ((List.range w.length).map (fun i => w.length + i)).map
      (fun j => vert_y ((extrude_prism w h).verts.getD j (0, 0, 0))) =
      List.replicate w.length h := by
    rw [List.map_map]
    have hcg : ∀ i ∈ List.range w.length,
        ((fun j => vert_y ((extrude_prism w h).verts.getD j (0, 0, 0))) ∘
          (fun i => w.length + i)) i = (fun _ => h) i := by
      intro i hi
      exact extrude_top_y w h i (List.mem_range.mp hi)
    rw [List.map_congr_left hcg, List.map_const', List.length_range]
  rw [face_centroid_y, hmap]
  simp only [List.sum_replicate, nsmul_eq_mul, List.length_map, List.length_range]
  exact mul_div_cancel_left₀ h hnz

/-- C2: for every validated polygon `w` and every height, `create_building`
returns the prism extruded to `scaledHeight = height * scale * heightScale`,
whose faces are exactly `w.length` walls, one roof and one floor, roof and
floor congruent (same vertex count) to the polygon, and whose roof centroid
sits at `scaledHeight`; on the spec's square-footprint example this gives
4 walls, 1 roof, 1 floor and roof centroid `10 * HEIGHT_SCALE`. -/
theorem C2_extrusion :
    (∀ (mpdLon : ℚ) (coords : List (ℚ × ℚ)) (height : ℚ) (sd : SceneData)
        (w : List (ℚ × ℚ)), validate_footprint mpdLon sd coords = some w →
      create_building mpdLon coords height sd =
        some (extrude_prism w (scaled_building_height height sd)) ∧
      scaled_building_height height sd = height * sd.scale * HEIGHT_SCALE ∧
      (extrude_prism w (scaled_building_height height sd)).faces.countP
          (fun f => decide (f.role = FaceRole.wall)) = w.length ∧
      (extrude_prism w (scaled_building_height height sd)).faces.countP
          (fun f => decide (f.role = FaceRole.roof)) = 1 ∧
      (extrude_prism w (scaled_building_height height sd)).faces.countP
          (fun f => decide (f.role = FaceRole.floor)) = 1 ∧
      (∀ f ∈ (extrude_prism w (scaled_building_height height sd)).faces,
        f.role ≠ FaceRole.wall → f.idxs.length = w.length) ∧
      (∀ f ∈ (extrude_prism w (scaled_building_height height sd)).faces,
        f.role = FaceRole.roof →
          face_centroid_y (extrude_prism w (scaled_building_height height sd)) f =
            scaled_building_height height sd)) ∧
    ((create_building 111320 exampleCoords 10 sd0).map
        (fun m => (m.faces.countP (fun f => decide (f.role = FaceRole.wall)),
                   m.faces.countP (fun f => decide (f.role = FaceRole.roof)),
                   m.faces.countP (fun f => decide (f.role = FaceRole.floor)))) =
        some (4, 1, 1) ∧
      (create_building 111320 exampleCoords 10 sd0).map
        (fun m => (m.faces.filter (fun f => decide (f.role = FaceRole.roof))).map
          (face_centroid_y m)) = some [10 * HEIGHT_SCALE]) := by
  constructor
  · intro mpdLon coords height sd w hw
    have hw3 : 3 ≤ w.length := validate_footprint_length mpdLon sd coords w hw
    have hwne : w ≠ [] := by
      intro hnil
      rw [hnil] at hw3
      simp at hw3
    refine ⟨?_, rfl, ?_, ?_, ?_, ?_, ?_⟩
    · rw [create_building, hw, Option.map_some']
    · simp only [extrude_prism, List.countP_cons]
      simp only [decide_eq_true_eq]
      rw [List.countP_eq_length.mpr ?_]
      · simp
      · intro f hf
        rcases List.mem_map.mp hf with ⟨i, _, rfl⟩
        simp
    · simp only [extrude_prism, List.countP_cons]
      simp only [decide_eq_true_eq]
      rw [List.countP_eq_zero.mpr ?_]
      · simp
      · intro f hf
        rcases List.mem_map.mp hf with ⟨i, _, rfl⟩
        simp
    · simp only [extrude_prism, List.countP_cons]
      simp only [decide_eq_true_eq]
      rw [List.countP_eq_zero.mpr ?_]
      · simp
      · intro f hf
        rcases List.mem_map.mp hf with ⟨i, _, rfl⟩
        simp
    · intro f hf hrole
      simp only [extrude_prism, List.mem_cons, List.mem_map, List.mem_range] at hf
      rcases hf with rfl | rfl | ⟨i, _, rfl⟩
      · simp
      · simp
      · simp at hrole
    · intro f hf hrole
      simp only [extrude_prism, List.mem_cons, List.mem_map, List.mem_range] at hf
      rcases hf with rfl | rfl | ⟨i, _, rfl⟩
      · cases hrole
      · exact roof_centroid w (scaled_building_height height sd) hwne
      · cases hrole
  · constructor
    · decide
    · decide

/-- C2 witness: the spec's example — square footprint, height 10, scale 1,
center (0, 0) — validates to `exampleVerts` and extrudes to the mesh with
4 wall faces. -/
theorem C2_extrusion_witness :
    create_building 111320 exampleCoords 10 sd0 =
      some (extrude_prism exampleVerts (scaled_building_height 10 sd0)) ∧
    (extrude_prism exampleVerts (scaled_building_height 10 sd0)).faces.countP
        (fun f => decide (f.role = FaceRole.wall)) = exampleVerts.length :=
  ⟨(C2_extrusion.1 111320 exampleCoords 10 sd0 exampleVerts (by decide)).1,
   (C2_extrusion.1 111320 exampleCoords 10 sd0 exampleVerts (by decide)).2.2.1⟩

/-- C7: footprint validation projects all points and (a) drops the last
projected point only when it is exactly equal to the first — near-duplicate
closing vertices are NOT deduped; (b) returns `none` whenever fewer than 3
distinct vertices remain or the bottom-face construction fails
(duplicate or collinear vertices); (c) a rejected footprint is skipped by
the building loop without aborting the run. -/
theorem C7_validation :
    (∀ (mpdLon : ℚ) (sd : SceneData) (coords : List (ℚ × ℚ)),
      (project_footprint mpdLon sd coords).head? ≠
          (project_footprint mpdLon sd coords).getLast? →
      drop_closing_dup (project_footprint mpdLon sd coords) =
        project_footprint mpdLon sd coords) ∧
    (∀ (mpdLon : ℚ) (sd : SceneData) (coords : List (ℚ × ℚ)),
      (drop_closing_dup (project_footprint mpdLon sd coords)).dedup.length < 3 ∨
        face_construction_fails (drop_closing_dup (project_footprint mpdLon sd coords)) →
      validate_footprint mpdLon sd coords = none) ∧
    (∀ (mpdLon : ℚ) (sd : SceneData) (b : Building) (bs : List Building),
      create_building mpdLon b.coords b.height sd = none →
      build_all mpdLon sd (b :: bs) = build_all mpdLon sd bs) := by
  refine ⟨?_, ?_, ?_⟩
  · intro mpdLon sd coords h
    rw [drop_closing_dup, if_neg h]
  · intro mpdLon sd coords h
    rw [validate_footprint]
    by_cases h3 : (project_footprint mpdLon sd coords).length < 3
    · rw [if_pos h3]
    · rw [if_neg h3]
      by_cases h4 : (drop_closing_dup (project_footprint mpdLon sd coords)).length < 3
      · rw [if_pos h4]
      · rw [if_neg h4]
        rcases h with hd | hf
        · have hnd : ¬(drop_closing_dup (project_footprint mpdLon sd coords)).Nodup := by
            intro hn
            rw [List.dedup_eq_self.mpr hn] at hd
            omega
          have hfc : face_construction_fails
              (drop_closing_dup (project_footprint mpdLon sd coords)) := Or.inl hnd
          rw [if_pos hfc]
        · rw [if_pos hf]
  · intro mpdLon sd b bs h
    simp only [build_all, List.filterMap_cons, h]

/-- C7 witness: a footprint with an exactly-repeated (non-closing) vertex
— fewer than 3 distinct vertices — is rejected. -/
theorem C7_validation_witness :
    validate_footprint 1 sd0 [(0, 0), (0, 0), (1, 1)] = none :=
  C7_validation.2.1 1 sd0 [(0, 0), (0, 0), (1, 1)] (Or.inl (by decide))

/-- Every placement the scatter loop returns passed
`is_valid_tree_location` with the margin 2 used at the call site. -/
theorem mem_scatter_loop_valid (polys : List (List (ℚ × ℚ)))
    (minx maxx minz maxz : ℚ) (count : ℕ) (r : ℕ → ℚ) :
    ∀ (fuel placed attempts k : ℕ) (p : Placement),
      p ∈ (scatter_loop polys minx maxx minz maxz count r fuel placed attempts k).1 →
      is_valid_tree_location polys p.x p.z 2 = true := by
  intro fuel
  induction fuel with
  | zero =>
    intro placed attempts k p hp
    simp [scatter_loop] at hp
  | succ n ih =>
    intro placed attempts k p hp
    simp only [scatter_loop] at hp
    set st := (if (0.3 : ℚ) < r (k + 2) then "cluster" else "cone") with hst
    split_ifs at hp with h1 h2
    · simp at hp
    · rcases List.mem_cons.mp hp with rfl | hmem
      · exact h2
      · exact ih _ _ _ p hmem
    · exact ih _ _ _ p hp

/-- The scatter loop uses at most `attempts + fuel` attempts. -/
theorem scatter_loop_attempts_le (polys : List (List (ℚ × ℚ)))
    (minx maxx minz maxz : ℚ) (count : ℕ) (r : ℕ → ℚ) :
    ∀ (fuel placed attempts k : ℕ),
      (scatter_loop polys minx maxx minz maxz count r fuel placed attempts k).2 ≤
        attempts + fuel := by
  intro fuel
  induction fuel with
  | zero =>
    intro placed attempts k
    simp [scatter_loop]
  | succ n ih =>
    intro placed attempts k
    simp only [scatter_loop]
    set st := (if (0.3 : ℚ) < r (k + 2) then "cluster" else "cone") with hst
    split_ifs with h1 h2
    · simp
    · exact le_trans (ih _ _ _) (by omega)
    · exact le_trans (ih _ _ _) (by omega)

/-- The scatter loop never returns more than `count - placed` placements. -/
theorem scatter_loop_length_le (polys : List (List (ℚ × ℚ)))
    (minx maxx minz maxz : ℚ) (count : ℕ) (r : ℕ → ℚ) :
    ∀ (fuel placed attempts k : ℕ),
      (scatter_loop polys minx maxx minz maxz count r fuel placed attempts k).1.length ≤
        count - placed := by
  intro fuel
  induction fuel with
  | zero =>
    intro placed attempts k
    simp [scatter_loop]
  | succ n ih =>
    intro placed attempts k
    simp only [scatter_loop]
    set st := (if (0.3 : ℚ) < r (k + 2) then "cluster" else "cone") with hst
    split_ifs with h1 h2
    · simp
    · have := ih (placed + 1) (attempts + 1) (create_tree_draws st r (k + 4))
      simp only [List.length_cons]
      omega
    · exact le_trans (ih _ _ _) (by omega)

/-- Exhaustion is the only source of shortfall: the scatter loop either
reaches the requested count or uses its entire attempt budget. -/
theorem scatter_loop_complete_or_exhaust (polys : List (List (ℚ × ℚ)))
    (minx maxx minz maxz : ℚ) (count : ℕ) (r : ℕ → ℚ) :
    ∀ (fuel placed attempts k : ℕ),
      (scatter_loop polys minx maxx minz maxz count r fuel placed attempts k).1.length =
          count - placed ∨
        (scatter_loop polys minx maxx minz maxz count r fuel placed attempts k).2 =
          attempts + fuel := by
  intro fuel
  induction fuel with
  | zero =>
    intro placed attempts k
    right
    simp [scatter_loop]
  | succ n ih =>
    intro placed attempts k
    simp only [scatter_loop]
    set st := (if (0.3 : ℚ) < r (k + 2) then "cluster" else "cone") with hst
    split_ifs with h1 h2
    · left
      simp
      omega
    · rcases ih (placed + 1) (attempts + 1) (create_tree_draws st r (k + 4)) with hl | hr
      · left
        simp only [List.length_cons, hl]
        omega
      · right
        rw [hr]
        omega
    · rcases ih placed (attempts + 1) (k + 2) with hl | hr
      · left
        exact hl
      · right
        rw [hr]
        omega

/-- Accepted placements lie inside the shrunk bounds whenever the random
stream draws from [0, 1] and the shrunk bounds are nonempty. -/
theorem scatter_loop_mem_bounds (polys : List (List (ℚ × ℚ)))
    (minx maxx minz maxz : ℚ) (count : ℕ) (r : ℕ → ℚ)
    (hr : ∀ n, 0 ≤ r n ∧ r n ≤ 1) (hx : minx ≤ maxx) (hz : minz ≤ maxz) :
    ∀ (fuel placed attempts k : ℕ) (p : Placement),
      p ∈ (scatter_loop polys minx maxx minz maxz count r fuel placed attempts k).1 →
      minx ≤ p.x ∧ p.x ≤ maxx ∧ minz ≤ p.z ∧ p.z ≤ maxz := by
  intro fuel
  induction fuel with
  | zero =>
    intro placed attempts k p hp
    simp [scatter_loop] at hp
  | succ n ih =>
    intro placed attempts k p hp
    simp only [scatter_loop] at hp
    set st := (if (0.3 : ℚ) < r (k + 2) then "cluster" else "cone") with hst
    split_ifs at hp with h1 h2
    · simp at hp
    · rcases List.mem_cons.mp hp with rfl | hmem
      · refine ⟨?_, ?_, ?_, ?_⟩
        · have := mul_nonneg (hr k).1 (by linarith : (0:ℚ) ≤ maxx - minx)
          simp only
          linarith
        · have := mul_le_of_le_one_left (by linarith : (0:ℚ) ≤ maxx - minx) (hr k).2
          simp only
          linarith
        · have := mul_nonneg (hr (k + 1)).1 (by linarith : (0:ℚ) ≤ maxz - minz)
          simp only
          linarith
        · have := mul_le_of_le_one_left (by linarith : (0:ℚ) ≤ maxz - minz) (hr (k + 1)).2
          simp only
          linarith
      · exact ih _ _ _ p hmem
    · exact ih _ _ _ p hp

/-- Unfolding of a successful validity test: the point is outside every
obstacle polygon, and every positive-length edge is at squared distance at
least `margin * margin`. -/
theorem is_valid_spec (polys : List (List (ℚ × ℚ))) (x z margin : ℚ)
    (h : is_valid_tree_location polys x z margin = true)
    (poly : List (ℚ × ℚ)) (hpoly : poly ∈ polys) :
    point_in_polygon x z poly = false ∧
    ∀ i < poly.length,
      poly.getD i (0, 0) ≠ poly.getD ((i + 1) % poly.length) (0, 0) →
      margin * margin ≤
        dist_sq_point_seg x z (poly.getD i (0, 0)).1 (poly.getD i (0, 0)).2
          (poly.getD ((i + 1) % poly.length) (0, 0)).1
          (poly.getD ((i + 1) % poly.length) (0, 0)).2 := by
  rw [is_valid_tree_location, List.all_eq_true] at h
  have h2 := h poly hpoly
  rw [Bool.and_eq_true] at h2
  obtain ⟨hpip, hedges⟩ := h2
  refine ⟨by simpa using hpip, ?_⟩
  intro i hi hne
  rw [List.all_eq_true] at hedges
  have h3 := hedges i (List.mem_range.mpr hi)
  set p1 := poly.getD i (0, 0) with hp1
  set p2 := poly.getD ((i + 1) % poly.length) (0, 0) with hp2
  rw [Bool.or_eq_true, decide_eq_true_eq, decide_eq_true_eq] at h3
  rcases h3 with hle | hge
  · exfalso
    apply hne
    have q1 : (p2.1 - p1.1) * (p2.1 - p1.1) = 0 :=
      le_antisymm (by nlinarith [mul_self_nonneg (p2.2 - p1.2)]) (mul_self_nonneg _)
    have q2 : (p2.2 - p1.2) * (p2.2 - p1.2) = 0 :=
      le_antisymm (by nlinarith [mul_self_nonneg (p2.1 - p1.1)]) (mul_self_nonneg _)
    have e1 := mul_self_eq_zero.mp q1
    have e2 := mul_self_eq_zero.mp q2
    exact Prod.ext (by linarith) (by linarith)
  · exact hge

/-- C5 counterexample: a building whose three coordinates coincide yields
the obstacle polygon [(0,0), (0,0), (0,0)]; the scatter run accepts the
placement (0, 0) (ray casting reports it outside, and the code skips all
zero-length edges), yet the claim's clamped point-to-segment distance from
the placement to each edge of that polygon is 0, below the margin 2. -/
theorem C5_counterexample :
    (scatter_trees 111320 [bDeg] sd0 ⟨-10, 10, -10, 10⟩ 1 rhalf).1.map
        (fun p => (p.x, p.z)) = [(0, 0)] ∧
    building_polys 111320 sd0 [bDeg] = [[(0, 0), (0, 0), (0, 0)]] ∧
    dist_sq_point_seg 0 0 0 0 0 0 < 2 * 2 := by decide

/-- C5 amended: for every accepted placement and every obstacle polygon,
the ray-casting point-in-polygon test is false, and the clamped
point-to-segment distance from the placement to every edge of POSITIVE
length is at least the margin (2, as passed by the code); zero-length
edges are skipped by the code's `length_sq > 0` guard. -/
theorem C5_scatter_margin (mpdLon : ℚ) (bs : List Building) (sd : SceneData)
    (gb : Bounds) (count : ℕ) (r : ℕ → ℚ) (p : Placement)
    (hp : p ∈ (scatter_trees mpdLon bs sd gb count r).1)
    (poly : List (ℚ × ℚ)) (hpoly : poly ∈ building_polys mpdLon sd bs) :
    point_in_polygon p.x p.z poly = false ∧
    ∀ i < poly.length,
      poly.getD i (0, 0) ≠ poly.getD ((i + 1) % poly.length) (0, 0) →
      2 * 2 ≤
        dist_sq_point_seg p.x p.z (poly.getD i (0, 0)).1 (poly.getD i (0, 0)).2
          (poly.getD ((i + 1) % poly.length) (0, 0)).1
          (poly.getD ((i + 1) % poly.length) (0, 0)).2 := by
  rw [scatter_trees] at hp
  have hv := mem_scatter_loop_valid (building_polys mpdLon sd bs)
    (gb.minX + 3) (gb.maxX - 3) (gb.minZ + 3) (gb.maxZ - 3) count r
    (count * 20) 0 0 0 p hp
  exact is_valid_spec (building_polys mpdLon sd bs) p.x p.z 2 hv poly hpoly

/-- C5 witness: with a flat obstacle near x = 100 the placement (0, 0) is
accepted, the inside test is false and the first edge is at squared
distance at least 4. -/
theorem C5_scatter_margin_witness :
    point_in_polygon 0 0 [(100, 0), (101, 0), (102, 0)] = false ∧
    2 * 2 ≤ dist_sq_point_seg 0 0 100 0 101 0 := by
  have happ := C5_scatter_margin 1 [bFar] sd0 ⟨-10, 10, -10, 10⟩ 1 rhalf
    ⟨0, 0, "cluster", 11/10⟩ (by decide) [(100, 0), (101, 0), (102, 0)] (by decide)
  refine ⟨happ.1, ?_⟩
  have h2 := happ.2 0 (by decide) (by decide)
  simpa using h2

/-- C6: the scatter planner samples inside the bounds shrunk by the fixed
edge margin 3.0, uses at most `count * 20` attempts, returns at most
`count` placements, can only fall short when the attempt budget is
exhausted, and always returns (it never aborts); the shortfall is exposed
through the returned placement and attempt counts. -/
theorem C6_scatter_budget (mpdLon : ℚ) (bs : List Building) (sd : SceneData)
    (gb : Bounds) (count : ℕ) (r : ℕ → ℚ)
    (hr : ∀ n, 0 ≤ r n ∧ r n ≤ 1)
    (hbx : gb.minX + 3 ≤ gb.maxX - 3) (hbz : gb.minZ + 3 ≤ gb.maxZ - 3) :
    (scatter_trees mpdLon bs sd gb count r).2 ≤ count * 20 ∧
    (scatter_trees mpdLon bs sd gb count r).1.length ≤ count ∧
    ((scatter_trees mpdLon bs sd gb count r).1.length = count ∨
      (scatter_trees mpdLon bs sd gb count r).2 = count * 20) ∧
    ∀ p ∈ (scatter_trees mpdLon bs sd gb count r).1,
      gb.minX + 3 ≤ p.x ∧ p.x ≤ gb.maxX - 3 ∧
      gb.minZ + 3 ≤ p.z ∧ p.z ≤ gb.maxZ - 3 := by
  rw [scatter_trees]
  refine ⟨?_, ?_, ?_, ?_⟩
  · have := scatter_loop_attempts_le (building_polys mpdLon sd bs)
      (gb.minX + 3) (gb.maxX - 3) (gb.minZ + 3) (gb.maxZ - 3) count r
      (count * 20) 0 0 0
    omega
  · have := scatter_loop_length_le (building_polys mpdLon sd bs)
      (gb.minX + 3) (gb.maxX - 3) (gb.minZ + 3) (gb.maxZ - 3) count r
      (count * 20) 0 0 0
    omega
  · have := scatter_loop_complete_or_exhaust (building_polys mpdLon sd bs)
      (gb.minX + 3) (gb.maxX - 3) (gb.minZ + 3) (gb.maxZ - 3) count r
      (count * 20) 0 0 0
    omega
  · intro p hp
    exact scatter_loop_mem_bounds (building_polys mpdLon sd bs)
      (gb.minX + 3) (gb.maxX - 3) (gb.minZ + 3) (gb.maxZ - 3) count r
      hr hbx hbz (count * 20) 0 0 0 p hp

/-- C6 witness: a concrete run stays within its attempt budget and its
requested count. -/
theorem C6_scatter_budget_witness :
    (scatter_trees 1 [] sd0 ⟨0, 20, 0, 20⟩ 1 rhalf).2 ≤ 1 * 20 ∧
    (scatter_trees 1 [] sd0 ⟨0, 20, 0, 20⟩ 1 rhalf).1.length ≤ 1 :=
  ⟨(C6_scatter_budget 1 [] sd0 ⟨0, 20, 0, 20⟩ 1 rhalf
      (fun _ => (by decide : (0:ℚ) ≤ 1/2 ∧ (1/2:ℚ) ≤ 1))
      (by decide) (by decide)).1,
   (C6_scatter_budget 1 [] sd0 ⟨0, 20, 0, 20⟩ 1 rhalf
      (fun _ => (by decide : (0:ℚ) ≤ 1/2 ∧ (1/2:ℚ) ≤ 1))
      (by decide) (by decide)).2.1⟩

/-- Membership in the emitted tile list: exactly the tiles with
`(col, row)` in range and the prescribed world centers. -/
theorem mem_calculate_tile_grid (b : Bounds) (T : ℚ) (t : Tile) :
    t ∈ (calculate_tile_grid b T).tiles ↔
      ∃ col < (calculate_tile_grid b T).cols.toNat,
        ∃ row < (calculate_tile_grid b T).rows.toNat,
          t = ⟨col, row, (b.minX - T * 0.5) + ((col : ℚ) + 0.5) * T,
               (b.minZ - T * 0.5) + ((row : ℚ) + 0.5) * T⟩ := by
  simp only [calculate_tile_grid, List.mem_flatMap, List.mem_map, List.mem_range]
  constructor
  · rintro ⟨row, hrow, col, hcol, rfl⟩
    exact ⟨col, hcol, row, hrow, rfl⟩
  · rintro ⟨col, hcol, row, hrow, rfl⟩
    exact ⟨row, hrow, col, hcol, rfl⟩

/-- C3: the tile grid planner pads the content bounds by
`worldTileSize * 0.5` per side, takes `cols`/`rows` as the ceiling of the
padded spans over `worldTileSize`, and emits exactly one tile per
`(col, row)` in `[0, cols) × [0, rows)` with world centers
`gridMin + (index + 0.5) * worldTileSize`; the example content bounds
{0..100} × {0..40} at tile size 15 give 8 columns and 4 rows. -/
theorem C3_tile_grid :
    (∀ (b : Bounds) (T : ℚ), 0 < T →
      (calculate_tile_grid b T).gridBounds =
        ⟨b.minX - T * 0.5, b.maxX + T * 0.5, b.minZ - T * 0.5, b.maxZ + T * 0.5⟩ ∧
      (calculate_tile_grid b T).cols =
        ⌈((b.maxX + T * 0.5) - (b.minX - T * 0.5)) / T⌉ ∧
      (calculate_tile_grid b T).rows =
        ⌈((b.maxZ + T * 0.5) - (b.minZ - T * 0.5)) / T⌉ ∧
      (∀ c r : ℕ,
        ((c : ℤ) < (calculate_tile_grid b T).cols ∧
            (r : ℤ) < (calculate_tile_grid b T).rows) ↔
          ∃ t ∈ (calculate_tile_grid b T).tiles, t.col = c ∧ t.row = r) ∧
      (∀ t ∈ (calculate_tile_grid b T).tiles,
        t.worldX = (b.minX - T * 0.5) + ((t.col : ℚ) + 0.5) * T ∧
        t.worldZ = (b.minZ - T * 0.5) + ((t.row : ℚ) + 0.5) * T) ∧
      (∀ t ∈ (calculate_tile_grid b T).tiles, ∀ u ∈ (calculate_tile_grid b T).tiles,
        t.col = u.col → t.row = u.row → t = u)) ∧
    (calculate_tile_grid exampleBounds 15).cols = 8 ∧
    (calculate_tile_grid exampleBounds 15).rows = 4 := by
  constructor
  · intro b T hT
    refine ⟨rfl, rfl, rfl, ?_, ?_, ?_⟩
    · intro c r
      constructor
      · rintro ⟨hc, hr⟩
        refine ⟨⟨c, r, (b.minX - T * 0.5) + ((c : ℚ) + 0.5) * T,
          (b.minZ - T * 0.5) + ((r : ℚ) + 0.5) * T⟩, ?_, rfl, rfl⟩
        rw [mem_calculate_tile_grid]
        exact ⟨c, Int.lt_toNat.mpr hc, r, Int.lt_toNat.mpr hr, rfl⟩
      · rintro ⟨t, ht, hc, hr⟩
        rw [mem_calculate_tile_grid] at ht
        obtain ⟨col, hcol, row, hrow, rfl⟩ := ht
        simp only at hc hr
        subst hc
        subst hr
        exact ⟨Int.lt_toNat.mp hcol, Int.lt_toNat.mp hrow⟩
    · intro t ht
      rw [mem_calculate_tile_grid] at ht
      obtain ⟨col, hcol, row, hrow, rfl⟩ := ht
      exact ⟨rfl, rfl⟩
    · intro t ht u hu hc hr
      rw [mem_calculate_tile_grid] at ht hu
      obtain ⟨ct, hct, rt, hrt, rfl⟩ := ht
      obtain ⟨cu, hcu, ru, hru, rfl⟩ := hu
      simp only at hc hr
      subst hc
      subst hr
      rfl
  · exact ⟨by decide, by decide⟩

/-- C3 witness: the example grid bounds are the content bounds padded by
half a tile per side. -/
theorem C3_tile_grid_witness :
    (calculate_tile_grid exampleBounds 15).gridBounds =
      ⟨exampleBounds.minX - 15 * 0.5, exampleBounds.maxX + 15 * 0.5,
       exampleBounds.minZ - 15 * 0.5, exampleBounds.maxZ + 15 * 0.5⟩ :=
  (C3_tile_grid.1 exampleBounds 15 (by decide)).1

/-- One-dimensional tile cover: every coordinate between `gmin` and
`gmin + cols * T` lies within `T / 2` of some cell center
`gmin + (c + 0.5) * T` with `c < cols`. -/
theorem tile_cover_1d (gmin T x : ℚ) (cols : ℤ) (hT : 0 < T) (h1 : 1 ≤ cols)
    (hx0 : gmin ≤ x) (hxc : x ≤ gmin + cols * T) :
    ∃ c : ℕ, (c : ℤ) < cols ∧ |x - (gmin + ((c : ℚ) + 0.5) * T)| ≤ T / 2 := by
  have hu0 : (0:ℚ) ≤ (x - gmin) / T := div_nonneg (by linarith) hT.le
  have huc : (x - gmin) / T ≤ (cols : ℚ) := by
    rw [div_le_iff₀ hT]
    linarith
  set u := (x - gmin) / T with hu
  have hux : u * T = x - gmin := div_mul_cancel₀ _ hT.ne'
  set ci : ℤ := min ⌊u⌋ (cols - 1) with hci
  have hc0 : (0:ℤ) ≤ ci := le_min (Int.floor_nonneg.mpr hu0) (by omega)
  have hcl : ci < cols := lt_of_le_of_lt (min_le_right _ _) (by omega)
  have hbound : (ci : ℚ) ≤ u ∧ u ≤ (ci : ℚ) + 1 := by
    rcases le_or_lt ⌊u⌋ (cols - 1) with hcase | hcase
    · have heq : ci = ⌊u⌋ := min_eq_left hcase
      constructor
      · rw [heq]
        exact Int.floor_le u
      · rw [heq]
        exact (Int.lt_floor_add_one u).le
    · have heq : ci = cols - 1 := min_eq_right (by omega)
      have hcu : ((cols : ℤ) : ℚ) ≤ u := by
        have hc2 : ((cols : ℤ) : ℚ) ≤ ((⌊u⌋ : ℤ) : ℚ) := by
          exact_mod_cast (by omega : cols ≤ ⌊u⌋)
        exact le_trans hc2 (Int.floor_le u)
      constructor
      · rw [heq]
        push_cast
        linarith
      · rw [heq]
        push_cast
        linarith
  refine ⟨ci.toNat, ?_, ?_⟩
  · rw [Int.toNat_of_nonneg hc0]
    exact hcl
  · have hcast : ((ci.toNat : ℕ) : ℚ) = ((ci : ℤ) : ℚ) := by
      exact_mod_cast Int.toNat_of_nonneg hc0
    rw [hcast]
    have hx1 : x - (gmin + (((ci : ℤ) : ℚ) + 0.5) * T) =
        (u - (((ci : ℤ) : ℚ) + 0.5)) * T := by
      have hr : (u - (((ci : ℤ) : ℚ) + 0.5)) * T =
          u * T - (((ci : ℤ) : ℚ) + 0.5) * T := by ring
      rw [hr, hux]
      ring
    rw [hx1, abs_mul, abs_of_pos hT]
    have habs : |u - (((ci : ℤ) : ℚ) + 0.5)| ≤ 0.5 := by
      rw [abs_le]
      constructor
      · nlinarith [hbound.2]
      · nlinarith [hbound.1]
    calc |u - (((ci : ℤ) : ℚ) + 0.5)| * T ≤ 0.5 * T :=
          mul_le_mul_of_nonneg_right habs hT.le
      _ = T / 2 := by ring

/-- C4 counterexample: for the example bounds at tile size 15 the point
(110, 0) lies inside the cell of tile (7, 0) — centered at (105, 0) — yet
outside `gridBounds` (whose maxX is 107.5): the union of tile cells does
NOT cover `gridBounds` exactly, it overshoots it. -/
theorem C4_counterexample :
    (⟨7, 0, 105, 0⟩ : Tile) ∈ (calculate_tile_grid exampleBounds 15).tiles ∧
    in_tile_cell ⟨7, 0, 105, 0⟩ 15 110 0 ∧
    ¬((110 : ℚ) ≤ (calculate_tile_grid exampleBounds 15).gridBounds.maxX) := by
  decide

/-- C4 amended: for content bounds with `minX ≤ maxX` and `minZ ≤ maxZ`
and `worldTileSize > 0`, `gridBounds` strictly contains the content bounds
on every side, and the union of the emitted tile cells contains all of
`gridBounds` (hence all of the content bounds); the union may extend past
`gridBounds`, so the cover is not exact. -/
theorem C4_coverage (b : Bounds) (T : ℚ) (hT : 0 < T)
    (hbx : b.minX ≤ b.maxX) (hbz : b.minZ ≤ b.maxZ) :
    ((calculate_tile_grid b T).gridBounds.minX < b.minX ∧
     b.maxX < (calculate_tile_grid b T).gridBounds.maxX ∧
     (calculate_tile_grid b T).gridBounds.minZ < b.minZ ∧
     b.maxZ < (calculate_tile_grid b T).gridBounds.maxZ) ∧
    ∀ x z : ℚ,
      (calculate_tile_grid b T).gridBounds.minX ≤ x →
      x ≤ (calculate_tile_grid b T).gridBounds.maxX →
      (calculate_tile_grid b T).gridBounds.minZ ≤ z →
      z ≤ (calculate_tile_grid b T).gridBounds.maxZ →
      ∃ t ∈ (calculate_tile_grid b T).tiles, in_tile_cell t T x z := by
  constructor
  · refine ⟨?_, ?_, ?_, ?_⟩
    · show b.minX - T * 0.5 < b.minX
      linarith
    · show b.maxX < b.maxX + T * 0.5
      linarith
    · show b.minZ - T * 0.5 < b.minZ
      linarith
    · show b.maxZ < b.maxZ + T * 0.5
      linarith
  · intro x z hx1 hx2 hz1 hz2
    replace hx1 : b.minX - T * 0.5 ≤ x := hx1
    replace hx2 : x ≤ b.maxX + T * 0.5 := hx2
    replace hz1 : b.minZ - T * 0.5 ≤ z := hz1
    replace hz2 : z ≤ b.maxZ + T * 0.5 := hz2
    have hcols1 : 1 ≤ (calculate_tile_grid b T).cols := by
      show (1:ℤ) ≤ ⌈((b.maxX + T * 0.5) - (b.minX - T * 0.5)) / T⌉
      have harg : (0:ℚ) < ((b.maxX + T * 0.5) - (b.minX - T * 0.5)) / T :=
        div_pos (by linarith) hT
      have := Int.ceil_pos.mpr harg
      omega
    have hrows1 : 1 ≤ (calculate_tile_grid b T).rows := by
      show (1:ℤ) ≤ ⌈((b.maxZ + T * 0.5) - (b.minZ - T * 0.5)) / T⌉
      have harg : (0:ℚ) < ((b.maxZ + T * 0.5) - (b.minZ - T * 0.5)) / T :=
        div_pos (by linarith) hT
      have := Int.ceil_pos.mpr harg
      omega
    have hxc : x ≤ (b.minX - T * 0.5) + ((calculate_tile_grid b T).cols : ℚ) * T := by
      have hle : ((b.maxX + T * 0.5) - (b.minX - T * 0.5)) / T ≤
          ((calculate_tile_grid b T).cols : ℚ) := Int.le_ceil _
      rw [div_le_iff₀ hT] at hle
      linarith
    have hzc : z ≤ (b.minZ - T * 0.5) + ((calculate_tile_grid b T).rows : ℚ) * T := by
      have hle : ((b.maxZ + T * 0.5) - (b.minZ - T * 0.5)) / T ≤
          ((calculate_tile_grid b T).rows : ℚ) := Int.le_ceil _
      rw [div_le_iff₀ hT] at hle
      linarith
    obtain ⟨c, hcc, hcx⟩ := tile_cover_1d (b.minX - T * 0.5) T x
      (calculate_tile_grid b T).cols hT hcols1 hx1 hxc
    obtain ⟨rr, hrr, hrz⟩ := tile_cover_1d (b.minZ - T * 0.5) T z
      (calculate_tile_grid b T).rows hT hrows1 hz1 hzc
    refine ⟨⟨c, rr, (b.minX - T * 0.5) + ((c : ℚ) + 0.5) * T,
      (b.minZ - T * 0.5) + ((rr : ℚ) + 0.5) * T⟩, ?_, hcx, hrz⟩
    rw [mem_calculate_tile_grid]
    exact ⟨c, Int.lt_toNat.mpr hcc, rr, Int.lt_toNat.mpr hrr, rfl⟩

/-- C4 witness: at the example bounds the grid bounds strictly contain the
content bounds on every side. -/
theorem C4_coverage_witness :
    (calculate_tile_grid exampleBounds 15).gridBounds.minX < exampleBounds.minX ∧
    exampleBounds.maxX < (calculate_tile_grid exampleBounds 15).gridBounds.maxX ∧
    (calculate_tile_grid exampleBounds 15).gridBounds.minZ < exampleBounds.minZ ∧
    exampleBounds.maxZ < (calculate_tile_grid exampleBounds 15).gridBounds.maxZ :=
  (C4_coverage exampleBounds 15 (by decide) (by decide) (by decide)).1

end RenderTiles
